import Mathlib

/-!
Shallow embedding of the preflight validation / configuration-resolution core
of the balena migrate tool (src/migrator/...), together with theorems checking
the natural-language specification against it.

External effects (filesystem, DNS, TCP connect, subprocess invocation) are
modelled as explicit function parameters; machine integers are Nat/Int with
explicit truncation where the source truncates.
-/

namespace Migrate

/-- Error kinds of `MigError` (mig_error.rs; taxonomy as used by the sources
under src/: Upstream, InvParam, NotFound, InvState, ExecProcess, NotImpl,
plus the `MigError::displayed()` already-displayed marker). -/
inductive MigErrorKind where
  | Upstream
  | InvParam
  | NotFound
  | InvState
  | ExecProcess
  | NotImpl
  | Displayed
  deriving DecidableEq, Repr

/-- `MigError`: an error kind plus the remark attached via `from_remark` /
`MigErrCtx::from_remark`; `cause` holds the message of the wrapped upstream
error when the source attaches one via `.context(...)`. -/
structure MigError where
  kind : MigErrorKind
  remark : String
  cause : Option String := none
  deriving DecidableEq, Repr

/-- `MigError::displayed()`: a terminal error whose message was already shown. -/
def MigError.displayed : MigError := { kind := .Displayed, remark := "" }

/-- Unix path absoluteness test (`Path::is_absolute`). -/
def isAbsolute (p : String) : Bool := p.toList.head? = some '/'

/-- `Path::join` on the sub-path layout the sources use: joining an absolute
path replaces, otherwise a separator is inserted when needed. -/
def pathJoin (base sub : String) : String :=
  if isAbsolute sub then sub
  else if base.toList.getLast? = some '/' then base ++ sub
  else base ++ "/" ++ sub

/-- Result of a subprocess invocation (`CmdRes` in common.rs): captured
stdout/stderr and whether the exit status was success. -/
structure CmdRes where
  stdout : String
  stderr : String
  status_success : Bool
  deriving DecidableEq, Repr

/-! ## Connectivity prober: `check_tcp_connect` (common.rs, lines 137-171) -/

/-- A resolved socket address (opaque to the logic under verification). -/
def SockAddr := String
deriving DecidableEq, Repr

/-- `check_tcp_connect(host, port, timeout)` (common.rs:137-171).
`to_socket_addrs` models `url.to_socket_addrs()` and `connect_timeout`
models `TcpStream::connect_timeout(addr, Duration::new(timeout, 0))`; the
shutdown result is ignored as in the source (`let _res = ...`). -/
def check_tcp_connect (host : String) (port : Nat) (timeout : Nat)
    (to_socket_addrs : String → Except MigError (List SockAddr))
    (connect_timeout : SockAddr → Nat → Except MigError Unit) :
    Except MigError Unit :=
  let url := host ++ ":" ++ toString port
  match to_socket_addrs url with
  | .error e =>
      .error { kind := .Upstream,
               remark := "check_tcp_connect: failed to resolve host address: '" ++ url ++ "'",
               cause := some e.remark }
  | .ok addrs =>
      match addrs with
      | sock_addr :: _ =>
          match connect_timeout sock_addr timeout with
          | .ok _ => .ok ()
          | .error e =>
              .error { kind := .Upstream,
                       remark := "check_tcp_connect: failed to connect to: '" ++ url
                                  ++ "' with timeout: " ++ toString timeout,
                       cause := some e.remark }
      | [] =>
          .error { kind := .InvState,
                   remark := "check_tcp_connect: no results from name resolution for: '" ++ url }

/-! ## Artifact locator: `FileInfo::new` (file_info.rs, lines 66-107) -/

/-- The filesystem view `FileInfo::new` consults: `Path::exists`,
`Path::canonicalize` (with the io error message on failure) and
`metadata().len()` (with the io error message on failure). -/
structure FileFs where
  pathExists : String → Bool
  canon : String → Except String String
  metadata_len : String → Except String Nat

/-- `FileInfo` (file_info.rs:57-61): canonical absolute path and size. -/
structure FileInfo where
  path : String
  size : Nat
  deriving DecidableEq, Repr

/-- Outcome of a Rust computation that may panic (`unwrap`), fail with a
`MigError`, or produce a value. -/
inductive Outcome (α : Type) where
  | panics
  | err (e : MigError)
  | ok (a : α)
  deriving Repr, DecidableEq

/-- `FileInfo::new(file, work_dir)` (file_info.rs:66-107): try the name as
given; else, when not absolute, try it joined to the work directory; else
absent (`Ok(None)`).  A found path is canonicalized (the source `unwrap`s,
so a canonicalization failure panics) and stat'ed for its size (a stat
failure is an `Upstream` error). -/
def FileInfo.new (fs : FileFs) (file work_dir : String) : Outcome (Option FileInfo) :=
  let checked_path : Option String :=
    if fs.pathExists file then
      some file
    else
      if ¬ isAbsolute file then
        let search_path := pathJoin work_dir file
        if fs.pathExists search_path then some search_path
        else none
      else
        none
  match checked_path with
  | none => .ok none
  | some cp =>
      match fs.canon cp with
      | .error _ => .panics
      | .ok abs_path =>
          match fs.metadata_len abs_path with
          | .error e =>
              .err { kind := .Upstream,
                     remark := "failed to retrieve metadata for path " ++ abs_path,
                     cause := some e }
          | .ok len => .ok (some { path := abs_path, size := len })

/-! ## Artifact classifier: `FileType` and `FileInfo::is_type`
(file_info.rs, lines 15-24, 30-55, 125-166) -/

/-- `FileType` (file_info.rs:31-40). -/
inductive FileType where
  | OSImage
  | KernelAMD64
  | KernelARMHF
  | KernelI386
  | InitRD
  | Json
  | Text
  | DTB
  deriving DecidableEq, Repr

/-- `FileType::get_descr` (file_info.rs:43-54). -/
def FileType.get_descr : FileType → String
  | .OSImage => "balena OS image"
  | .KernelAMD64 => "balena migrate kernel image for AMD64"
  | .KernelARMHF => "balena migrate kernel image for ARMHF"
  | .KernelI386 => "balena migrate kernel image for I386"
  | .InitRD => "balena migrate initramfs"
  | .DTB => "Device Tree Blob"
  | .Json => "balena config.json file"
  | .Text => "Text file"

/-- One item of the anchored signature regexes of file_info.rs: a literal
run of characters or `.*` (any run of non-newline characters); a top-level
alternation `^(A|B)...` is expanded into two literal-headed sequences at
the pattern definitions below. -/
inductive RItem where
  | lit (s : String)
  | anyStar
  deriving Repr

/-- The suffixes of `cs` that `.*` can leave behind: every suffix reachable
by consuming non-newline characters (Rust regex `.` does not match `\n`). -/
def starSplits : List Char → List (List Char)
  | [] => [[]]
  | c :: cs => (c :: cs) :: (if c = '\n' then [] else starSplits cs)

/-- Matcher for a `^`...`$`-anchored sequence of `RItem`s against the whole
character list, with `.*` not crossing a newline (Rust regex default). -/
def matchItems : List RItem → List Char → Bool
  | [], cs => cs.isEmpty
  | .lit s :: rs, cs =>
      s.toList.isPrefixOf cs && matchItems rs (cs.drop s.toList.length)
  | .anyStar :: rs, cs => (starSplits cs).any (fun suffix => matchItems rs suffix)

/-- Run an anchored item sequence against a string. -/
def rmatch (rs : List RItem) (s : String) : Bool := matchItems rs s.toList

/-- `OS_IMG_FTYPE_REGEX` (file_info.rs:15-16):
`^(DOS/MBR boot sector|x86 boot sector).*\(gzip compressed data.*\)$`,
with the leading alternation expanded. -/
def os_img_ftype_match (s : String) : Bool :=
  rmatch [.lit "DOS/MBR boot sector", .anyStar, .lit "(gzip compressed data", .anyStar, .lit ")"] s ||
  rmatch [.lit "x86 boot sector", .anyStar, .lit "(gzip compressed data", .anyStar, .lit ")"] s

/-- `INITRD_FTYPE_REGEX` (file_info.rs:17):
`^ASCII cpio archive.*\(gzip compressed data.*\)$`. -/
def initrd_ftype_match (s : String) : Bool :=
  rmatch [.lit "ASCII cpio archive", .anyStar, .lit "(gzip compressed data", .anyStar, .lit ")"] s

/-- `OS_CFG_FTYPE_REGEX` (file_info.rs:18): `^ASCII text.*$`. -/
def os_cfg_ftype_match (s : String) : Bool :=
  rmatch [.lit "ASCII text", .anyStar] s

/-- `KERNEL_AMD64_FTYPE_REGEX` (file_info.rs:19-20):
`^(Linux kernel x86 boot executable bzImage|x86 boot sector).*$`. -/
def kernel_amd64_ftype_match (s : String) : Bool :=
  rmatch [.lit "Linux kernel x86 boot executable bzImage", .anyStar] s ||
  rmatch [.lit "x86 boot sector", .anyStar] s

/-- `KERNEL_ARMHF_FTYPE_REGEX` (file_info.rs:21):
`^Linux kernel ARM boot executable zImage.*$`. -/
def kernel_armhf_ftype_match (s : String) : Bool :=
  rmatch [.lit "Linux kernel ARM boot executable zImage", .anyStar] s

/-- `KERNEL_I386_FTYPE_REGEX` (file_info.rs:22):
`^Linux kernel i386 boot executable bzImage.*$`. -/
def kernel_i386_ftype_match (s : String) : Bool :=
  rmatch [.lit "Linux kernel i386 boot executable bzImage", .anyStar] s

/-- `TEXT_FTYPE_REGEX` (file_info.rs:23): `^ASCII text.*$`. -/
def text_ftype_match (s : String) : Bool :=
  rmatch [.lit "ASCII text", .anyStar] s

/-- `DTB_FTYPE_REGEX` (file_info.rs:24): `^(Device Tree Blob|data).*$`. -/
def dtb_ftype_match (s : String) : Bool :=
  rmatch [.lit "Device Tree Blob", .anyStar] s ||
  rmatch [.lit "data", .anyStar] s

/-- The signature match dispatch of `FileInfo::is_type` (file_info.rs:156-165). -/
def ftype_match : FileType → String → Bool
  | .OSImage, s => os_img_ftype_match s
  | .InitRD, s => initrd_ftype_match s
  | .KernelARMHF, s => kernel_armhf_ftype_match s
  | .KernelAMD64, s => kernel_amd64_ftype_match s
  | .KernelI386, s => kernel_i386_ftype_match s
  | .Json, s => os_cfg_ftype_match s
  | .Text, s => text_ftype_match s
  | .DTB, s => dtb_ftype_match s

/-- `FileInfo::is_type(cmds, ftype)` (file_info.rs:125-166).  `call_res` is the
result of `cmds.call(FILE_CMD, ["-bz", path], true)` (the external `file`
utility); a failed or silent utility is a hard `InvParam` error, otherwise the
match result against the expected kind's signature pattern is returned. -/
def FileInfo.is_type (self : FileInfo) (call_res : Except MigError CmdRes)
    (ftype : FileType) : Except MigError Bool :=
  match call_res with
  | .error e => .error e
  | .ok cmd_res =>
      if ¬ cmd_res.status_success || cmd_res.stdout = "" then
        .error { kind := .InvParam,
                 remark := "new: failed determine type for file " ++ self.path }
      else
        .ok (ftype_match ftype cmd_res.stdout)

/-! ## Command resolver: `call_cmd` (linux/util.rs, lines 25-90) -/

/-- `REQUIRED_CMDS` (util.rs:25-31). -/
def REQUIRED_CMDS : List String := ["df", "lsblk", "mount", "file", "uname"]

/-- `OPTIONAL_CMDS` (util.rs:33-36). -/
def OPTIONAL_CMDS : List String := ["mokutil", "grub-install"]

/-- The required-command half of the lazy `CMD_PATH` cache (util.rs:56-67):
`whereis` is consulted for each required command; a failure panics
(`panic!` in the source), modelled as `none`. -/
def required_cmd_path (whereis : String → Except MigError String) :
    List String → Option (List (String × Option String))
  | [] => some []
  | cmd :: rest =>
      match whereis cmd with
      | .ok path => (required_cmd_path whereis rest).map (fun m => (cmd, some path) :: m)
      | .error _ => none

/-- The optional-command half of the `CMD_PATH` cache (util.rs:68-75): a
`whereis` failure records the command as absent (`None`). -/
def optional_cmd_path (whereis : String → Except MigError String)
    (cmds : List String) : List (String × Option String) :=
  cmds.map (fun cmd =>
    (cmd, match whereis cmd with
          | .ok path => some path
          | .error _ => none))

/-- The `CMD_PATH` cache built on first use of `call_cmd` (util.rs:53-78):
`none` models the `panic!` on a missing required command. -/
def build_cmd_path (whereis : String → Except MigError String) :
    Option (List (String × Option String)) :=
  (required_cmd_path whereis REQUIRED_CMDS).map
    (fun req => req ++ optional_cmd_path whereis OPTIONAL_CMDS)

/-- `call_cmd(cmd, args, trim_stdout)` (util.rs:48-90), over an already-built
`CMD_PATH` cache; `call` models `common::call` on the resolved path. -/
def call_cmd (cmd_path : List (String × Option String))
    (call : String → List String → Bool → Except MigError CmdRes)
    (cmd : String) (args : List String) (trim_stdout : Bool) :
    Except MigError CmdRes :=
  match cmd_path.lookup cmd with
  | some (some valid_cmd) => call valid_cmd args trim_stdout
  | some none =>
      .error { kind := .NotFound,
               remark := "Linux::util::call_cmd: " ++ cmd ++ " is not available" }
  | none =>
      .error { kind := .InvParam,
               remark := "Linux::util::call_cmd: " ++ cmd
                          ++ " is not in the list of checked commands" }

/-! ## Provisioning document: `BalenaCfgJson`
(migrate_info/balena_cfg_json.rs) -/

/-- A JSON value (`serde_json::Value`); integral numbers carry their exact
value as an `Int` (`as_u64` succeeds exactly on integers in `u64` range),
non-integral numbers are kept as their printed form. -/
inductive Value where
  | null
  | bool (b : Bool)
  | int (n : Int)
  | float (printed : String)
  | str (s : String)
  | arr (elems : List Value)
  | obj (fields : List (String × Value))
  deriving Repr

/-- `Value::as_str`: `Some` exactly on strings. -/
def Value.as_str : Value → Option String
  | .str s => some s
  | _ => none

/-- `Value::as_u64`: `Some` exactly on integers representable as `u64`
(`0 ≤ n < 2^64`; the bound is written as its numeral). -/
def Value.as_u64 : Value → Option Nat
  | .int n => if 0 ≤ n ∧ n ≤ 18446744073709551615 then some n.toNat else none
  | _ => none

/-- JSON string escaping as `serde_json` renders it. -/
def jsonEscapeChar (c : Char) : String :=
  if c = '"' then "\\\""
  else if c = '\\' then "\\\\"
  else if c = '\n' then "\\n"
  else if c = '\r' then "\\r"
  else if c = '\t' then "\\t"
  else if c.toNat < 0x20 then
    let hex := Nat.toDigits 16 c.toNat
    "\\u" ++ String.mk (List.replicate (4 - hex.length) '0' ++ hex)
  else String.mk [c]

/-- JSON string rendering (quotes plus escaping). -/
def jsonString (s : String) : String :=
  "\"" ++ String.join (s.toList.map jsonEscapeChar) ++ "\""

mutual
/-- `Value::to_string()`: compact JSON rendering (`serde_json`). -/
def Value.render : Value → String
  | .null => "null"
  | .bool true => "true"
  | .bool false => "false"
  | .int n => toString n
  | .float printed => printed
  | .str s => jsonString s
  | .arr elems => "[" ++ Value.renderList elems ++ "]"
  | .obj fields => "\x7b" ++ Value.renderFields fields ++ "\x7d"

/-- Comma-separated rendering of array elements. -/
def Value.renderList : List Value → String
  | [] => ""
  | [v] => Value.render v
  | v :: vs => Value.render v ++ "," ++ Value.renderList vs

/-- Comma-separated rendering of object fields. -/
def Value.renderFields : List (String × Value) → String
  | [] => ""
  | [(k, v)] => jsonString k ++ ":" ++ Value.render v
  | (k, v) :: fs => jsonString k ++ ":" ++ Value.render v ++ "," ++ Value.renderFields fs
end

/-- `HashMap::insert` semantics on the association-list representation of
the map's contents: an existing key's value is replaced, a new key is added,
and the returned `Option` is the previous value (`HashMap::insert`'s
return).  The list positions are representation bookkeeping only — the
source's `std::collections::HashMap` imposes no key order (its iteration
order is arbitrary and per-process randomized); only `lookup`-level facts
about this list are meaningful. -/
def mapInsert : List (String × Value) → String → Value →
    (Option Value × List (String × Value))
  | [], key, v => (none, [(key, v)])
  | (k, old) :: rest, key, v =>
      if k = key then (some old, (k, v) :: rest)
      else
        let (prev, rest') := mapInsert rest key v
        (prev, (k, old) :: rest')

/-- `HashMap::get` on the association-list document model. -/
def mapGet (m : List (String × Value)) (key : String) : Option Value :=
  m.lookup key

/-- `BalenaCfgJson` (balena_cfg_json.rs:19-24): the parsed key/value document
(`config: HashMap<String, Value>`, its contents represented as an
association list — the list order is a representation artifact, the
`HashMap` itself is unordered), the resolved provisioning artifact it was
read from, and the dirty flag. -/
structure BalenaCfgJson where
  config : List (String × Value)
  file : FileInfo
  modified : Bool

/-- The filesystem view of the provisioning-document code: file contents at
the JSON level (`none`: the file cannot be opened), the result of the one
`mktemp` call `write` performs, and whether opening the fresh file for
writing succeeds (`OpenOptions::open`), each carrying an io error message
on failure. -/
structure JsonFs where
  files : String → Option Value
  mktemp_res : Except String String
  open_w : String → Except String Unit

/-- `BalenaCfgJson::new(cfg_file)` (balena_cfg_json.rs:27-45): open and parse
the located provisioning artifact into the key/value document
(`serde_json::from_reader` into `HashMap<String, Value>` — the file must
hold a JSON object; the map keeps the object's key/value contents but, being
a `HashMap`, no key order); the dirty flag starts false. -/
def BalenaCfgJson.new (fs : JsonFs) (cfg_file : FileInfo) :
    Except MigError BalenaCfgJson :=
  match fs.files cfg_file.path with
  | none =>
      .error { kind := .Upstream,
               remark := "new: cannot open file '" ++ cfg_file.path ++ "'" }
  | some v =>
      match v with
      | .obj fields =>
          .ok { config := fields, file := cfg_file, modified := false }
      | _ =>
          .error { kind := .Upstream,
                   remark := "Failed to parse json from file '" ++ cfg_file.path ++ "'" }

/-- `BalenaCfgJson::write(work_dir)` (balena_cfg_json.rs:47-72): create a
fresh uniquely-named file via `mktemp` inside `work_dir`, open it for
writing, serialize the full document into it, clear the dirty flag, and
return the new path; the original file is never written.  `hash_iter`
models the `HashMap` iteration `serde_json::to_writer` follows when
emitting the object: the source's `std` `HashMap` iterates its entries in
an arbitrary, per-process randomized order, so the emitted key order is
some permutation of the map's contents that the program does not control
(theorems constrain `hash_iter` to permutations, nothing more).  The
result carries the new path, the updated in-memory value, and the updated
file store. -/
def BalenaCfgJson.write (self : BalenaCfgJson) (fs : JsonFs)
    (hash_iter : List (String × Value) → List (String × Value)) :
    Except MigError (String × BalenaCfgJson × (String → Option Value)) :=
  match fs.mktemp_res with
  | .error e =>
      .error { kind := .Upstream, remark := "Failed to create temporary file",
               cause := some e }
  | .ok new_path =>
      match fs.open_w new_path with
      | .error e =>
          .error { kind := .Upstream,
                   remark := "Failed to open file for writing: '" ++ new_path ++ "'",
                   cause := some e }
      | .ok _ =>
          .ok (new_path,
               { self with modified := false },
               fun p => if p = new_path then some (Value.obj (hash_iter self.config))
                        else fs.files p)

/-- `BalenaCfgJson::is_modified` (balena_cfg_json.rs:130-132). -/
def BalenaCfgJson.is_modified (self : BalenaCfgJson) : Bool := self.modified

/-- `BalenaCfgJson::get_str_val(name)` (balena_cfg_json.rs:142-161): absent
key is `NotFound`, present non-string is `InvParam`, string is its value. -/
def BalenaCfgJson.get_str_val (self : BalenaCfgJson) (name : String) :
    Except MigError String :=
  match mapGet self.config name with
  | some value =>
      match value.as_str with
      | some s => .ok s
      | none =>
          .error { kind := .InvParam,
                   remark := "Invalid type encountered for '" ++ name
                              ++ "', expected String, found in config.json" }
  | none =>
      .error { kind := .NotFound,
               remark := "Key could not be found in config.json: '" ++ name ++ "'" }

/-- `BalenaCfgJson::get_uint_val(name)` (balena_cfg_json.rs:163-182): absent
key is `NotFound`, present non-u64 is `InvParam`, u64 is its value. -/
def BalenaCfgJson.get_uint_val (self : BalenaCfgJson) (name : String) :
    Except MigError Nat :=
  match mapGet self.config name with
  | some value =>
      match value.as_u64 with
      | some n => .ok n
      | none =>
          .error { kind := .InvParam,
                   remark := "Invalid type encountered for '" ++ name
                              ++ "', expected uint" }
  | none =>
      .error { kind := .NotFound,
               remark := "Key could not be found in config.json: '" ++ name ++ "'" }

/-- `BalenaCfgJson::get_hostname` (balena_cfg_json.rs:184-186). -/
def BalenaCfgJson.get_hostname (self : BalenaCfgJson) : Except MigError String :=
  self.get_str_val "hostname"

/-- `BalenaCfgJson::set_host_name(hostname)` (balena_cfg_json.rs:188-199):
set the dirty flag, insert the new hostname, and return the previous value
rendered via `Value::to_string()` when one existed. -/
def BalenaCfgJson.set_host_name (self : BalenaCfgJson) (hostname : String) :
    Option String × BalenaCfgJson :=
  let self := { self with modified := true }
  let (prev, config) := mapInsert self.config "hostname" (Value.str hostname)
  (prev.map Value.render, { self with config := config })

/-- `BalenaCfgJson::get_app_id` (balena_cfg_json.rs:201-203). -/
def BalenaCfgJson.get_app_id (self : BalenaCfgJson) : Except MigError Nat :=
  self.get_uint_val "applicationId"

/-- `BalenaCfgJson::get_api_key` (balena_cfg_json.rs:205-207). -/
def BalenaCfgJson.get_api_key (self : BalenaCfgJson) : Except MigError String :=
  self.get_str_val "apiKey"

/-- `BalenaCfgJson::get_api_endpoint` (balena_cfg_json.rs:209-211). -/
def BalenaCfgJson.get_api_endpoint (self : BalenaCfgJson) : Except MigError String :=
  self.get_str_val "apiEndpoint"

/-- `BalenaCfgJson::get_vpn_endpoint` (balena_cfg_json.rs:213-215). -/
def BalenaCfgJson.get_vpn_endpoint (self : BalenaCfgJson) : Except MigError String :=
  self.get_str_val "vpnEndpoint"

/-- `BalenaCfgJson::get_vpn_port` (balena_cfg_json.rs:217-219). -/
def BalenaCfgJson.get_vpn_port (self : BalenaCfgJson) : Except MigError Nat :=
  self.get_uint_val "vpnPort"

/-- `BalenaCfgJson::get_device_type` (balena_cfg_json.rs:221-223). -/
def BalenaCfgJson.get_device_type (self : BalenaCfgJson) : Except MigError String :=
  self.get_str_val "deviceType"

/-- Modelled from the spec: `BALENA_API_PORT` (`defs` module, absent from
src/), "the well-known provisioning API port" the api check defaults to
when the endpoint URL gives none. -/
def BALENA_API_PORT : Nat := 443

/-- Modelled from the spec: the slice of the resolved `Config` that
`BalenaCfgJson::check` consults (`is_check_api`, `is_check_vpn`,
`get_check_timeout`; "API/VPN check toggles and timeout" owned by
BalenaConfig, whose source is absent from src/). -/
structure CheckConfig where
  check_api : Bool
  check_vpn : Bool
  check_timeout : Nat
  deriving DecidableEq, Repr

/-- Host and port of a parsed URL (`url::Url`). -/
structure UrlParts where
  host : Option String
  port : Option Nat
  deriving DecidableEq, Repr

/-- `BalenaCfgJson::check(config)` (balena_cfg_json.rs:74-128): report the
application id; when api checking is enabled parse the api endpoint URL,
default its port to `BALENA_API_PORT`, and probe it; when vpn checking is
enabled probe the vpn endpoint at `get_vpn_port()? as u16` — the u64 port is
truncated to 16 bits.  A failed probe or unparseable api host is a
`displayed` terminal error.  `parse_url` models `Url::parse`,
`to_socket_addrs`/`connect_timeout` feed `check_tcp_connect` as in
common.rs. -/
def BalenaCfgJson.check (self : BalenaCfgJson) (config : CheckConfig)
    (parse_url : String → Except String UrlParts)
    (to_socket_addrs : String → Except MigError (List SockAddr))
    (connect_timeout : SockAddr → Nat → Except MigError Unit) :
    Except MigError Unit :=
  match self.get_app_id with
  | .error e => .error e
  | .ok _app_id =>
      let api_res : Except MigError Unit :=
        if config.check_api then
          match self.get_api_endpoint with
          | .error e => .error e
          | .ok api_endpoint =>
              match parse_url api_endpoint with
              | .error e =>
                  .error { kind := .Upstream,
                           remark := "Failed to parse balena api url '"
                                      ++ api_endpoint ++ "'",
                           cause := some e }
              | .ok api_url =>
                  match api_url.host with
                  | some api_host =>
                      let api_port :=
                        match api_url.port with
                        | some p => p
                        | none => BALENA_API_PORT
                      match check_tcp_connect api_host api_port config.check_timeout
                          to_socket_addrs connect_timeout with
                      | .ok _ => .ok ()
                      | .error _ => .error MigError.displayed
                  | none => .error MigError.displayed
        else .ok ()
      match api_res with
      | .error e => .error e
      | .ok _ =>
          if config.check_vpn then
            match self.get_vpn_endpoint with
            | .error e => .error e
            | .ok vpn_endpoint =>
                match self.get_vpn_port with
                | .error e => .error e
                | .ok vpn_port_u64 =>
                    let vpn_port := vpn_port_u64 % 2 ^ 16
                    match check_tcp_connect vpn_endpoint vpn_port config.check_timeout
                        to_socket_addrs connect_timeout with
                    | .ok _ => .ok ()
                    | .error _ => .error MigError.displayed
          else .ok ()

/-! ## Configuration resolver: `Config::new` (config.rs, lines 98-203) and
the migrate sub-config (config/migrate_config.rs) -/

/-- `MigMode` (migrate_config.rs:8-13). -/
inductive MigMode where
  | INVALID
  | AGENT
  | IMMEDIATE
  | PRETEND
  deriving DecidableEq, Repr

/-- `DEFAULT_MODE` (migrate_config.rs:15). -/
def DEFAULT_MODE : MigMode := MigMode.INVALID

/-- ASCII lowercasing of one character (`str::to_lowercase` on the ASCII
mode strings the parser compares against). -/
def asciiLower (c : Char) : Char :=
  if 'A' ≤ c ∧ c ≤ 'Z' then Char.ofNat (c.toNat + 32) else c

/-- ASCII lowercasing of a string. -/
def strLower (s : String) : String := String.mk (s.toList.map asciiLower)

/-- `MigMode::from_str` as used by `Config::new` (config.rs:188); its body is
absent from src/ — modelled on the mode parsing of
`MigrateConfig::from_yaml` (migrate_config.rs:87-103): lowercase match on
immediate/agent/pretend, anything else an `InvParam` error. -/
def MigMode.from_str (mode : String) : Except MigError MigMode :=
  if strLower mode = "immediate" then .ok .IMMEDIATE
  else if strLower mode = "agent" then .ok .AGENT
  else if strLower mode = "pretend" then .ok .PRETEND
  else
    .error { kind := .InvParam,
             remark := "invalid value for migrate mode '" ++ mode ++ "'" }

/-- The migrate sub-config as consumed by `Config::new` (config.rs).  The
serde-based `migrate_config` source is absent from src/: per the spec the
work directory is unset unless the document or the command line sets one
("no silent default to the current directory"), and the mode defaults to
`DEFAULT_MODE = INVALID` (migrate_config.rs:15,33). -/
structure MigrateConfig where
  work_dir : Option String
  mode : MigMode
  deriving DecidableEq, Repr

/-- `MigrateConfig::default`: no work dir, `DEFAULT_MODE`. -/
def MigrateConfig.default : MigrateConfig :=
  { work_dir := none, mode := DEFAULT_MODE }

/-- `MigrateConfig::has_work_dir` (used at config.rs:158,176). -/
def MigrateConfig.has_work_dir (c : MigrateConfig) : Bool := c.work_dir.isSome

/-- `MigrateConfig::set_work_dir` (used at config.rs:161,173). -/
def MigrateConfig.set_work_dir (c : MigrateConfig) (dir : String) : MigrateConfig :=
  { c with work_dir := some dir }

/-- `MigrateConfig::set_mig_mode` (used at config.rs:188). -/
def MigrateConfig.set_mig_mode (c : MigrateConfig) (m : MigMode) : MigrateConfig :=
  { c with mode := m }

/-- Modelled from the spec: `MigrateConfig::check` (called from
`Config::check`, config.rs:232; its source is absent from src/) — "a
resolved mode of Invalid at the end of the cascade is always a terminal
validation failure". -/
def MigrateConfig.check (c : MigrateConfig) : Except MigError Unit :=
  match c.mode with
  | .INVALID => .error { kind := .InvParam, remark := "no migrate mode was selected" }
  | _ => .ok ()

/-- The balena sub-config slice `Config::new` touches (`set_image_path`,
config.rs:196; its source is absent from src/). -/
structure BalenaConfigSlice where
  image_path : Option String
  deriving DecidableEq, Repr

/-- `BalenaConfig::set_image_path` (used at config.rs:196). -/
def BalenaConfigSlice.set_image_path (c : BalenaConfigSlice) (image : String) :
    BalenaConfigSlice :=
  { c with image_path := some image }

/-- `Config` (config.rs:27-32); the balena and debug sub-trees beyond what
`Config::new` itself manipulates are external to src/ and their `check`
functions are passed as parameters below. -/
structure Config where
  migrate : MigrateConfig
  balena : BalenaConfigSlice
  deriving DecidableEq, Repr

/-- `Config::default` (config.rs:205-211). -/
def Config.default : Config :=
  { migrate := MigrateConfig.default, balena := { image_path := none } }

/-- `Config::check` (config.rs:231-237): validate the migrate sub-tree, then
the balena and debug sub-trees against the resolved mode. -/
def Config.check (c : Config)
    (balena_check debug_check : MigMode → Except MigError Unit) :
    Except MigError Unit :=
  match c.migrate.check with
  | .error e => .error e
  | .ok _ =>
      match balena_check c.migrate.mode with
      | .error e => .error e
      | .ok _ =>
          match debug_check c.migrate.mode with
          | .error e => .error e
          | .ok _ => .ok ()

/-- `DEFAULT_MIGRATE_CONFIG` (`defs` module, absent from src/): the default
config-document file name looked for in the current/work directory. -/
def DEFAULT_MIGRATE_CONFIG : String := "balena-migrate.yml"

/-- `Path::parent().unwrap()` on a canonical file path (config.rs:161):
the path with its last component removed. -/
def parentDir (p : String) : String :=
  let upto := (p.toList.reverse.dropWhile (fun c => c ≠ '/')).reverse
  if upto = ['/'] then "/" else String.mk upto.dropLast

/-- The filesystem view `Config::new` consults: `Path::canonicalize` (with
the io error message on failure), `common::file_exists`, and
`Config::from_file` (read + YAML parse of the configuration document). -/
structure CfgFs where
  canon : String → Except String String
  cfg_file_exists : String → Bool
  read_config : String → Except MigError Config

/-- The command-line values `Config::new` consumes (`mode`, `image`,
`config`, `work_dir`; config.rs:40-74). -/
structure CliArgs where
  mode : Option String
  image : Option String
  config : Option String
  work_dir : Option String

/-- The config-document name `Config::new` starts from (config.rs:129-140):
the command-line `config` value, else `DEFAULT_MIGRATE_CONFIG`. -/
def cfg_file_name (cli : CliArgs) : String :=
  match cli.config with
  | some cfg => cfg
  | none => DEFAULT_MIGRATE_CONFIG

/-- The config-document location step of `Config::new` (config.rs:142-152):
an absolute name is taken as is; otherwise the name is canonicalized
relative to the current directory, else joined to the provisional work
directory and canonicalized; else the document is not found. -/
def locate_config_path (fs : CfgFs) (tmp_work_dir cfg_name : String) :
    Option String :=
  if isAbsolute cfg_name then some cfg_name
  else
    match fs.canon cfg_name with
    | .ok abs_path => some abs_path
    | .error _ =>
        match fs.canon (pathJoin tmp_work_dir cfg_name) with
        | .ok abs_path => some abs_path
        | .error _ => none

/-- The trailing phase of `Config::new` (config.rs:186-202), run once a work
directory is resolved: apply the command-line mode override (parsed via
`MigMode::from_str`), apply the command-line image override, then run the
validation cascade `Config::check`. -/
def config_new_tail (balena_check debug_check : MigMode → Except MigError Unit)
    (cli : CliArgs) (config : Config) : Except MigError Config :=
  let mode_res : Except MigError Config :=
    match cli.mode with
    | some mode =>
        match MigMode.from_str mode with
        | .error e => .error e
        | .ok m =>
            .ok { config with migrate := config.migrate.set_mig_mode m }
    | none => .ok config
  match mode_res with
  | .error e => .error e
  | .ok config =>
      let config := match cli.image with
        | some image =>
            { config with balena := config.balena.set_image_path image }
        | none => config
      match config.check balena_check debug_check with
      | .error e => .error e
      | .ok _ => .ok config

/-- `Config::new` (config.rs:98-203), after logger setup: canonicalize the
command-line work dir if given; locate the config document (absolute
command-line path, else canonicalized relative to the current dir, else
relative to the provisional work dir); parse it if found (else defaults),
anchoring the work dir to the document's containing directory when neither
the document nor the command line set one; apply command-line work-dir and
mode overrides last; fail with a displayed error when no work dir resolved;
then run the validation cascade `Config::check`. -/
def config_new (fs : CfgFs)
    (balena_check debug_check : MigMode → Except MigError Unit)
    (cli : CliArgs) : Except MigError Config :=
  let work_dir_res : Except MigError (Option String) :=
    match cli.work_dir with
    | some dir =>
        match fs.canon dir with
        | .ok abs => .ok (some abs)
        | .error e =>
            .error { kind := .Upstream,
                     remark := "failed to create absolute path from work_dir: '"
                                ++ dir ++ "'",
                     cause := some e }
    | none => .ok none
  match work_dir_res with
  | .error e => .error e
  | .ok work_dir =>
      let tmp_work_dir := match work_dir with
        | some wd => wd
        | none => "./"
      let config_path : Option String :=
        locate_config_path fs tmp_work_dir (cfg_file_name cli)
      let config_res : Except MigError Config :=
        match config_path with
        | some config_path =>
            if fs.cfg_file_exists config_path then
              match fs.read_config config_path with
              | .error e => .error e
              | .ok config =>
                  if ¬ config.migrate.has_work_dir ∧ work_dir = none then
                    .ok { config with
                          migrate := config.migrate.set_work_dir (parentDir config_path) }
                  else
                    .ok config
            else
              .ok Config.default
        | none => .ok Config.default
      match config_res with
      | .error e => .error e
      | .ok config =>
          let config := match work_dir with
            | some wd => { config with migrate := config.migrate.set_work_dir wd }
            | none => config
          if ¬ config.migrate.has_work_dir then
            .error MigError.displayed
          else
            config_new_tail balena_check debug_check cli config

/-! ## Helper lemmas -/

/-- When every command of the list is located, the required half of the cache
is built and holds exactly those commands as keys. -/
lemma required_cmd_path_ok (whereis : String → Except MigError String)
    (cmds : List String) (h : ∀ c ∈ cmds, ∃ p, whereis c = .ok p) :
    ∃ m, required_cmd_path whereis cmds = some m ∧ m.map Prod.fst = cmds := by
  induction cmds with
  | nil => exact ⟨[], rfl, rfl⟩
  | cons c rest ih =>
      obtain ⟨p, hp⟩ := h c (by simp)
      obtain ⟨m, hm, hkeys⟩ := ih (fun c' hc' => h c' (by simp [hc']))
      refine ⟨(c, some p) :: m, ?_, by simp [hkeys]⟩
      simp [required_cmd_path, hp, hm]

/-- `List.lookup` skips a prefix none of whose keys match. -/
lemma lookup_append_of_not_mem_keys {α : Type} (l1 l2 : List (String × α))
    (c : String) (h : c ∉ l1.map Prod.fst) :
    (l1 ++ l2).lookup c = l2.lookup c := by
  induction l1 with
  | nil => rfl
  | cons kv t ih =>
      have hne : c ≠ kv.1 := by
        intro he
        exact h (by simp [he])
      have ht : c ∉ t.map Prod.fst := fun hm => h (by simp [hm])
      simpa [List.lookup, beq_eq_false_iff_ne.mpr hne] using ih ht

/-- `mapInsert` returns the previous value of the key, exactly as `lookup`
finds it. -/
lemma mapInsert_fst (m : List (String × Value)) (key : String) (v : Value) :
    (mapInsert m key v).1 = m.lookup key := by
  induction m with
  | nil => rfl
  | cons kv rest ih =>
      obtain ⟨k, old⟩ := kv
      by_cases hk : k = key
      · subst hk
        simp [mapInsert, List.lookup]
      · have : (key == k) = false := by
          simpa [beq_eq_false_iff_ne] using fun he => hk he.symm
        simp [mapInsert, List.lookup, hk, this, ih]

/-- After `mapInsert`, the inserted key holds the new value. -/
lemma mapInsert_lookup_self (m : List (String × Value)) (key : String) (v : Value) :
    (mapInsert m key v).2.lookup key = some v := by
  induction m with
  | nil => simp [mapInsert, List.lookup]
  | cons kv rest ih =>
      obtain ⟨k, old⟩ := kv
      by_cases hk : k = key
      · subst hk
        simp [mapInsert, List.lookup]
      · have : (key == k) = false := by
          simpa [beq_eq_false_iff_ne] using fun he => hk he.symm
        simp [mapInsert, List.lookup, hk, this, ih]

/-- `mapInsert` leaves every other key's value unchanged. -/
lemma mapInsert_lookup_other (m : List (String × Value)) (key : String) (v : Value)
    (k : String) (hne : k ≠ key) :
    (mapInsert m key v).2.lookup k = m.lookup k := by
  induction m with
  | nil => simp [mapInsert, List.lookup, beq_eq_false_iff_ne.mpr hne]
  | cons kv rest ih =>
      obtain ⟨k', old⟩ := kv
      by_cases hk : k' = key
      · subst hk
        simp [mapInsert, List.lookup, beq_eq_false_iff_ne.mpr hne]
      · simp [mapInsert, List.lookup, hk, ih]

/-- The keys present after `mapInsert` are the old keys plus the inserted
one. -/
lemma mapInsert_mem_keys (m : List (String × Value)) (key : String) (v : Value)
    (a : String) :
    a ∈ (mapInsert m key v).2.map Prod.fst ↔
      a ∈ m.map Prod.fst ∨ a = key := by
  induction m with
  | nil => simp [mapInsert]
  | cons kv rest ih =>
      obtain ⟨k, old⟩ := kv
      by_cases hk : k = key
      · subst hk
        simp [mapInsert]
        tauto
      · simp [mapInsert, hk, ih]
        tauto

/-- `mapInsert` keeps the map's keys free of duplicates (the `HashMap`
invariant: one entry per key). -/
lemma mapInsert_nodup (m : List (String × Value)) (key : String) (v : Value)
    (h : (m.map Prod.fst).Nodup) :
    ((mapInsert m key v).2.map Prod.fst).Nodup := by
  induction m with
  | nil => simp [mapInsert]
  | cons kv rest ih =>
      obtain ⟨k, old⟩ := kv
      simp only [List.map_cons, List.nodup_cons] at h
      by_cases hk : k = key
      · subst hk
        simpa [mapInsert] using h
      · simp only [mapInsert, hk, if_false, List.map_cons, List.nodup_cons]
        refine ⟨?_, ih h.2⟩
        rw [mapInsert_mem_keys]
        rintro (hmem | hkey)
        · exact h.1 hmem
        · exact hk hkey

/-- Two association lists holding the same entries (a permutation) with
duplicate-free keys agree on every lookup: the map's contents determine the
lookups regardless of the representation's order. -/
lemma lookup_eq_of_perm :
    ∀ {l₁ l₂ : List (String × Value)}, l₁.Perm l₂ →
      (l₁.map Prod.fst).Nodup → ∀ k, l₁.lookup k = l₂.lookup k := by
  intro l₁ l₂ h
  induction h with
  | nil =>
      intro _ k
      rfl
  | cons x h ih =>
      intro hnd k
      simp only [List.map_cons, List.nodup_cons] at hnd
      by_cases hk : k = x.1
      · simp [List.lookup, beq_iff_eq.mpr hk]
      · simp only [List.lookup, beq_eq_false_iff_ne.mpr hk]
        exact ih hnd.2 k
  | swap x y l =>
      intro hnd k
      simp only [List.map_cons, List.nodup_cons, List.mem_cons] at hnd
      have hxy : y.1 ≠ x.1 := fun he => hnd.1 (Or.inl he)
      by_cases hky : k = y.1
      · subst hky
        simp [List.lookup, beq_eq_false_iff_ne.mpr hxy]
      · by_cases hkx : k = x.1
        · subst hkx
          simp [List.lookup, beq_eq_false_iff_ne.mpr (fun he => hky he),
            beq_eq_false_iff_ne.mpr (Ne.symm hxy)]
        · simp [List.lookup, beq_eq_false_iff_ne.mpr hky,
            beq_eq_false_iff_ne.mpr hkx]
  | trans h₁ h₂ ih₁ ih₂ =>
      intro hnd k
      have hnd₂ := ((h₁.map Prod.fst).nodup_iff).mp hnd
      exact (ih₁ hnd k).trans (ih₂ hnd₂ k)

/-- `Config::check` succeeding implies the migrate sub-check passed. -/
lemma Config.check_ok_migrate (c : Config)
    (balena_check debug_check : MigMode → Except MigError Unit) (u : Unit)
    (h : c.check balena_check debug_check = .ok u) :
    MigrateConfig.check c.migrate = .ok () := by
  unfold Config.check at h
  split at h
  · cases h
  · rename_i u₂ heq
    cases u₂
    exact heq

/-- A successful `config_new_tail` preserves the work directory, has passed
the migrate check, and its mode is the command-line override when one was
given, else the incoming config's mode. -/
lemma config_new_tail_ok (balena_check debug_check : MigMode → Except MigError Unit)
    (cli : CliArgs) (config cfg : Config)
    (hok : config_new_tail balena_check debug_check cli config = .ok cfg) :
    cfg.migrate.work_dir = config.migrate.work_dir ∧
    MigrateConfig.check cfg.migrate = .ok () ∧
    (cli.mode = none → cfg.migrate.mode = config.migrate.mode) ∧
    (∀ s m, cli.mode = some s → MigMode.from_str s = .ok m →
      cfg.migrate.mode = m) := by
  unfold config_new_tail at hok
  dsimp only at hok
  split at hok
  · cases hok
  · rename_i config₁ hmode
    split at hok
    · cases hok
    · rename_i u hcheck
      cases hok
      have hmig : (match cli.image with
          | some image => { config₁ with balena := config₁.balena.set_image_path image }
          | none => config₁).migrate = config₁.migrate := by
        cases cli.image <;> rfl
      have hchk : MigrateConfig.check config₁.migrate = .ok () := by
        have h := Config.check_ok_migrate _ balena_check debug_check u hcheck
        rw [hmig] at h
        exact h
      split at hmode
      · -- cli.mode = some s
        rename_i s hs
        split at hmode
        · cases hmode
        · rename_i m hm
          cases hmode
          refine ⟨by rw [hmig]; simp [MigrateConfig.set_mig_mode],
                  by rw [hmig]; exact hchk, ?_, ?_⟩
          · intro hn
            rw [hs] at hn
            cases hn
          · intro s' m' hs' hm'
            rw [hs] at hs'
            cases hs'
            rw [hm] at hm'
            cases hm'
            rw [hmig]
            simp [MigrateConfig.set_mig_mode]
      · -- cli.mode = none
        rename_i hs
        cases hmode
        refine ⟨by rw [hmig], by rw [hmig]; exact hchk, ?_, ?_⟩
        · intro _
          rw [hmig]
        · intro s' m' hs' hm'
          rw [hs] at hs'
          cases hs'

/-- `config_new_tail` succeeds when the command-line mode parses to a valid
(non-Invalid) mode and the balena/debug checks pass for it, and the
resulting mode is the parsed override. -/
lemma config_new_tail_ok_of (balena_check debug_check : MigMode → Except MigError Unit)
    (cli : CliArgs) (config : Config) (s : String) (m : MigMode)
    (hs : cli.mode = some s) (hfs : MigMode.from_str s = .ok m)
    (hmne : m ≠ .INVALID)
    (hbc : balena_check m = .ok ()) (hdc : debug_check m = .ok ()) :
    ∃ cfg, config_new_tail balena_check debug_check cli config = .ok cfg ∧
      cfg.migrate.mode = m ∧
      cfg.migrate.work_dir = config.migrate.work_dir := by
  have hmc : MigrateConfig.check (config.migrate.set_mig_mode m) = .ok () := by
    cases m
    · exact absurd rfl hmne
    all_goals rfl
  unfold config_new_tail
  dsimp only
  rw [hs]
  dsimp only
  rw [hfs]
  dsimp only
  cases himg : cli.image with
  | none =>
      refine ⟨{ config with migrate := config.migrate.set_mig_mode m }, ?_, ?_, ?_⟩
      · have hcheck : Config.check
            { config with migrate := config.migrate.set_mig_mode m }
            balena_check debug_check = .ok () := by
          simp [Config.check, hmc, hbc, hdc, MigrateConfig.set_mig_mode]
          cases m
          · exact absurd rfl hmne
          all_goals rfl
        simp [hcheck]
      · simp [MigrateConfig.set_mig_mode]
      · simp [MigrateConfig.set_mig_mode]
  | some image =>
      refine ⟨{ migrate := config.migrate.set_mig_mode m,
                balena := config.balena.set_image_path image }, ?_, ?_, ?_⟩
      · have hcheck : Config.check
            { migrate := config.migrate.set_mig_mode m,
              balena := config.balena.set_image_path image }
            balena_check debug_check = .ok () := by
          simp [Config.check, hmc, hbc, hdc, MigrateConfig.set_mig_mode]
          cases m
          · exact absurd rfl hmne
          all_goals rfl
        simp [hcheck]
      · simp [MigrateConfig.set_mig_mode]
      · simp [MigrateConfig.set_mig_mode]

/-- A migrate sub-config that passes its check is not in `INVALID` mode. -/
lemma MigrateConfig.check_ok_ne_invalid (mig : MigrateConfig)
    (h : mig.check = .ok ()) : mig.mode ≠ .INVALID := by
  intro hm
  unfold MigrateConfig.check at h
  rw [hm] at h
  cases h

/-- `MigMode::from_str` never produces the `INVALID` mode. -/
lemma MigMode.from_str_ne_invalid (s : String) (m : MigMode)
    (h : MigMode.from_str s = .ok m) : m ≠ .INVALID := by
  unfold MigMode.from_str at h
  split at h
  · cases h
    intro hc
    cases hc
  · split at h
    · cases h
      intro hc
      cases hc
    · split at h
      · cases h
        intro hc
        cases hc
      · cases h

/-- Inversion for a successful `Config::new`: the run reached
`config_new_tail` on a config whose mode is the compiled-in default
`INVALID` (no document parsed) or the mode of a successfully parsed
document. -/
lemma config_new_ok_inv (fs : CfgFs)
    (balena_check debug_check : MigMode → Except MigError Unit)
    (cli : CliArgs) (cfg : Config)
    (hok : config_new fs balena_check debug_check cli = .ok cfg) :
    ∃ config₂, config_new_tail balena_check debug_check cli config₂ = .ok cfg ∧
      (config₂.migrate.mode = .INVALID ∨
       ∃ p c, fs.read_config p = .ok c ∧
         config₂.migrate.mode = c.migrate.mode) := by
  unfold config_new at hok
  dsimp only at hok
  split at hok
  · cases hok
  · rename_i work_dir hwdres
    split at hok
    · cases hok
    · rename_i config₁ hload
      split at hok
      · cases hok
      · have hana : config₁.migrate.mode = .INVALID ∨
            ∃ p c, fs.read_config p = .ok c ∧
              config₁.migrate.mode = c.migrate.mode := by
          split at hload
          · rename_i p hp
            split at hload
            · split at hload
              · cases hload
              · rename_i c hc
                split at hload
                · cases hload
                  right
                  exact ⟨p, _, hc, rfl⟩
                · cases hload
                  right
                  exact ⟨p, _, hc, rfl⟩
            · cases hload
              left
              rfl
          · cases hload
            left
            rfl
        cases work_dir with
        | none => exact ⟨config₁, hok, hana⟩
        | some wd =>
            refine ⟨{ config₁ with
                      migrate := config₁.migrate.set_work_dir wd }, hok, ?_⟩
            simpa [MigrateConfig.set_work_dir] using hana

/-! ## Theorems -/

/-- C1: work-directory precedence in `Config::new` — a command-line
`work_dir` always wins; else a work directory set by the located document is
used; else, when a document was found but set none, the document's containing
directory becomes the work directory; and when no command-line value is
given and no document is found, `Config::new` fails with the displayed
error instead of silently defaulting to the current directory. -/
theorem c1_work_dir_precedence (fs : CfgFs)
    (balena_check debug_check : MigMode → Except MigError Unit) (cli : CliArgs) :
    (∀ dir abs, cli.work_dir = some dir → fs.canon dir = .ok abs →
      ∀ cfg, config_new fs balena_check debug_check cli = .ok cfg →
        cfg.migrate.work_dir = some abs) ∧
    (∀ p c w, cli.work_dir = none →
      locate_config_path fs "./" (cfg_file_name cli) = some p →
      fs.cfg_file_exists p = true → fs.read_config p = .ok c →
      c.migrate.work_dir = some w →
      ∀ cfg, config_new fs balena_check debug_check cli = .ok cfg →
        cfg.migrate.work_dir = some w) ∧
    (∀ p c, cli.work_dir = none →
      locate_config_path fs "./" (cfg_file_name cli) = some p →
      fs.cfg_file_exists p = true → fs.read_config p = .ok c →
      c.migrate.work_dir = none →
      ∀ cfg, config_new fs balena_check debug_check cli = .ok cfg →
        cfg.migrate.work_dir = some (parentDir p)) ∧
    (cli.work_dir = none →
      (locate_config_path fs "./" (cfg_file_name cli) = none ∨
       ∃ p, locate_config_path fs "./" (cfg_file_name cli) = some p ∧
         fs.cfg_file_exists p = false) →
      config_new fs balena_check debug_check cli = .error MigError.displayed) := by
  refine ⟨?_, ?_, ?_, ?_⟩
  · intro dir abs hdir hcanon cfg hok
    unfold config_new at hok
    rw [hdir] at hok
    try dsimp only at hok
    rw [hcanon] at hok
    try dsimp only at hok
    split at hok
    · cases hok
    · rename_i config₁ hload
      rw [if_neg (by simp [MigrateConfig.set_work_dir,
        MigrateConfig.has_work_dir])] at hok
      obtain ⟨hwd, -, -, -⟩ := config_new_tail_ok _ _ _ _ _ hok
      rw [hwd]
      simp [MigrateConfig.set_work_dir]
  · intro p c w hcli hpath hex hread hdocwd cfg hok
    unfold config_new at hok
    rw [hcli] at hok
    try dsimp only at hok
    rw [hpath] at hok
    try dsimp only at hok
    rw [hex] at hok
    rw [if_pos rfl] at hok
    rw [hread] at hok
    try dsimp only at hok
    rw [if_neg (by simp [MigrateConfig.has_work_dir, hdocwd])] at hok
    try dsimp only at hok
    rw [if_neg (by simp [MigrateConfig.has_work_dir, hdocwd])] at hok
    obtain ⟨hwd, -, -, -⟩ := config_new_tail_ok _ _ _ _ _ hok
    rw [hwd, hdocwd]
  · intro p c hcli hpath hex hread hdocwd cfg hok
    unfold config_new at hok
    rw [hcli] at hok
    try dsimp only at hok
    rw [hpath] at hok
    try dsimp only at hok
    rw [hex] at hok
    rw [if_pos rfl] at hok
    rw [hread] at hok
    try dsimp only at hok
    rw [if_pos (by simp [MigrateConfig.has_work_dir, hdocwd])] at hok
    try dsimp only at hok
    rw [if_neg (by simp [MigrateConfig.has_work_dir,
      MigrateConfig.set_work_dir])] at hok
    obtain ⟨hwd, -, -, -⟩ := config_new_tail_ok _ _ _ _ _ hok
    rw [hwd]
    simp [MigrateConfig.set_work_dir]
  · intro hcli hmiss
    unfold config_new
    rw [hcli]
    dsimp only
    rcases hmiss with hloc | ⟨p, hloc, hex⟩
    · rw [hloc]
      try dsimp only
      simp [Config.default, MigrateConfig.default, MigrateConfig.has_work_dir]
    · rw [hloc]
      dsimp only
      rw [hex]
      try dsimp only
      simp [Config.default, MigrateConfig.default, MigrateConfig.has_work_dir]

/-- Witness for C1: with no command-line work dir and no document found
anywhere, `Config::new` fails with the displayed error (no silent default to
the current directory). -/
theorem c1_work_dir_precedence_witness :
    config_new
      { canon := fun _ => .error "ENOENT",
        cfg_file_exists := fun _ => false,
        read_config := fun _ => .error { kind := .Upstream, remark := "unused" } }
      (fun _ => .ok ()) (fun _ => .ok ())
      { mode := none, image := none, config := none, work_dir := none } =
      .error MigError.displayed := by
  exact (c1_work_dir_precedence
      { canon := fun _ => .error "ENOENT",
        cfg_file_exists := fun _ => false,
        read_config := fun _ => .error { kind := .Upstream, remark := "unused" } }
      (fun _ => .ok ()) (fun _ => .ok ())
      { mode := none, image := none, config := none, work_dir := none }).2.2.2
    rfl (Or.inl rfl)

/-- C2: mode resolution — a successful `Config::new` never ends in `INVALID`
mode (`INVALID` is a terminal validation failure); a parseable command-line
mode override determines the resolved mode; when every parsable document
leaves the mode at its `INVALID` default (the `migrate.mode` key is missing)
and no command-line override is given, resolution fails; and with such
documents but a valid override (and passing balena/debug checks and a
resolvable command-line work dir), resolution succeeds with the overriding
value. -/
theorem c2_mode_resolution (fs : CfgFs)
    (balena_check debug_check : MigMode → Except MigError Unit) (cli : CliArgs) :
    (∀ cfg, config_new fs balena_check debug_check cli = .ok cfg →
      cfg.migrate.mode ≠ .INVALID) ∧
    (∀ s m cfg, cli.mode = some s → MigMode.from_str s = .ok m →
      config_new fs balena_check debug_check cli = .ok cfg →
      cfg.migrate.mode = m) ∧
    (cli.mode = none →
      (∀ p c, fs.read_config p = .ok c → c.migrate.mode = .INVALID) →
      ∀ cfg, config_new fs balena_check debug_check cli ≠ .ok cfg) ∧
    (∀ dir abs s m, cli.work_dir = some dir → fs.canon dir = .ok abs →
      cli.mode = some s → MigMode.from_str s = .ok m →
      (∀ p, ∃ c, fs.read_config p = .ok c) →
      balena_check m = .ok () → debug_check m = .ok () →
      ∃ cfg, config_new fs balena_check debug_check cli = .ok cfg ∧
        cfg.migrate.mode = m) := by
  refine ⟨?_, ?_, ?_, ?_⟩
  · intro cfg hok
    obtain ⟨config₂, htail, -⟩ :=
      config_new_ok_inv fs balena_check debug_check cli cfg hok
    obtain ⟨-, hchk, -, -⟩ := config_new_tail_ok _ _ _ _ _ htail
    exact MigrateConfig.check_ok_ne_invalid _ hchk
  · intro s m cfg hs hfs hok
    obtain ⟨config₂, htail, -⟩ :=
      config_new_ok_inv fs balena_check debug_check cli cfg hok
    obtain ⟨-, -, -, hmode⟩ := config_new_tail_ok _ _ _ _ _ htail
    exact hmode s m hs hfs
  · intro hnone hdocs cfg hok
    obtain ⟨config₂, htail, hsrc⟩ :=
      config_new_ok_inv fs balena_check debug_check cli cfg hok
    obtain ⟨-, hchk, hmode, -⟩ := config_new_tail_ok _ _ _ _ _ htail
    have hinv : config₂.migrate.mode = .INVALID := by
      rcases hsrc with h | ⟨p, c, hc, heq⟩
      · exact h
      · rw [heq]
        exact hdocs p c hc
    exact MigrateConfig.check_ok_ne_invalid _ hchk (by rw [hmode hnone, hinv])
  · intro dir abs s m hdir hcanon hs hfs hreads hbc hdc
    have hmne : m ≠ .INVALID := MigMode.from_str_ne_invalid s m hfs
    unfold config_new
    rw [hdir]
    dsimp only
    rw [hcanon]
    dsimp only
    rcases hloc : locate_config_path fs abs (cfg_file_name cli) with _ | p
    · dsimp only
      rw [if_neg (by simp [Config.default, MigrateConfig.default,
        MigrateConfig.has_work_dir, MigrateConfig.set_work_dir])]
      obtain ⟨cfg, h1, h2, -⟩ := config_new_tail_ok_of balena_check debug_check cli
        _ s m hs hfs hmne hbc hdc
      exact ⟨cfg, h1, h2⟩
    · dsimp only
      rcases hex : fs.cfg_file_exists p with _ | _
      · rw [if_neg (by simp)]
        dsimp only
        rw [if_neg (by simp [Config.default, MigrateConfig.default,
          MigrateConfig.has_work_dir, MigrateConfig.set_work_dir])]
        obtain ⟨cfg, h1, h2, -⟩ := config_new_tail_ok_of balena_check debug_check cli
          _ s m hs hfs hmne hbc hdc
        exact ⟨cfg, h1, h2⟩
      · rw [if_pos rfl]
        obtain ⟨c, hc⟩ := hreads p
        rw [hc]
        dsimp only
        rw [if_neg (show ¬(¬c.migrate.has_work_dir = true ∧
          (some abs : Option String) = none) from by simp)]
        dsimp only
        rw [if_neg (show ¬¬(c.migrate.set_work_dir abs).has_work_dir = true from
          by simp [MigrateConfig.has_work_dir, MigrateConfig.set_work_dir])]
        obtain ⟨cfg, h1, h2, -⟩ := config_new_tail_ok_of balena_check debug_check cli
          _ s m hs hfs hmne hbc hdc
        exact ⟨cfg, h1, h2⟩

/-- Witness for C2: a document without a mode key plus `--mode pretend` on
the command line resolves to `PRETEND`. -/
theorem c2_mode_resolution_witness :
    ∃ cfg,
      config_new
        { canon := fun p => .ok ("/abs" ++ p),
          cfg_file_exists := fun _ => true,
          read_config := fun _ =>
            .ok { migrate := { work_dir := none, mode := .INVALID },
                  balena := { image_path := none } } }
        (fun _ => .ok ()) (fun _ => .ok ())
        { mode := some "pretend", image := none, config := none,
          work_dir := some "/tmp/mig" } = .ok cfg ∧
      cfg.migrate.mode = .PRETEND := by
  exact (c2_mode_resolution
      { canon := fun p => .ok ("/abs" ++ p),
        cfg_file_exists := fun _ => true,
        read_config := fun _ =>
          .ok { migrate := { work_dir := none, mode := .INVALID },
                balena := { image_path := none } } }
      (fun _ => .ok ()) (fun _ => .ok ())
      { mode := some "pretend", image := none, config := none,
        work_dir := some "/tmp/mig" }).2.2.2
    "/tmp/mig" "/abs/tmp/mig" "pretend" .PRETEND rfl rfl rfl (by rfl)
    (fun p => ⟨_, rfl⟩) rfl rfl

/-- C5: `check_tcp_connect` resolves host:port; a DNS failure is reported with
its cause; an empty resolution list is an `InvState` error; a non-empty list
is used through its first candidate only (the tail never influences the
result): connection success is success, and a connection failure or timeout
is reported with its distinguishing cause preserved. -/
theorem c5_check_tcp_connect_contract (host : String) (port timeout : Nat)
    (to_socket_addrs : String → Except MigError (List SockAddr))
    (connect_timeout : SockAddr → Nat → Except MigError Unit) :
    let url := host ++ ":" ++ toString port
    (∀ e, to_socket_addrs url = .error e →
      check_tcp_connect host port timeout to_socket_addrs connect_timeout =
        .error { kind := .Upstream,
                 remark := "check_tcp_connect: failed to resolve host address: '"
                            ++ url ++ "'",
                 cause := some e.remark }) ∧
    (to_socket_addrs url = .ok [] →
      ∃ e, check_tcp_connect host port timeout to_socket_addrs connect_timeout =
        .error e ∧ e.kind = .InvState) ∧
    (∀ addr rest, to_socket_addrs url = .ok (addr :: rest) →
      check_tcp_connect host port timeout to_socket_addrs connect_timeout =
        match connect_timeout addr timeout with
        | .ok _ => .ok ()
        | .error e =>
            .error { kind := .Upstream,
                     remark := "check_tcp_connect: failed to connect to: '" ++ url
                                ++ "' with timeout: " ++ toString timeout,
                     cause := some e.remark }) := by
  refine ⟨?_, ?_, ?_⟩
  · intro e he
    simp [check_tcp_connect, he]
  · intro he
    refine ⟨{ kind := .InvState,
              remark := "check_tcp_connect: no results from name resolution for: '"
                         ++ (host ++ ":" ++ toString port) }, ?_, rfl⟩
    simp [check_tcp_connect, he]
  · intro addr rest he
    simp only [check_tcp_connect, he]

/-- Witness for C5 at a concrete resolver and prober: the first candidate is
probed and success is returned. -/
theorem c5_check_tcp_connect_contract_witness :
    check_tcp_connect "vpn.example.com" 443 20
      (fun _ => .ok ["10.0.0.1", "10.0.0.2"])
      (fun _ _ => .ok ()) = .ok () := by
  have h := (c5_check_tcp_connect_contract "vpn.example.com" 443 20
      (fun _ => .ok ["10.0.0.1", "10.0.0.2"])
      (fun _ _ => .ok ())).2.2 "10.0.0.1" ["10.0.0.2"] rfl
  simpa using h

/-- C4: `is_type` returns a boolean match result against the expected kind's
signature when the type-identification utility succeeds with non-empty
output; empty output or a non-zero exit status is a hard `InvParam` error,
distinct from a false result; and the empty type-description string matches
no kind's signature pattern. -/
theorem c4_is_type_contract (fi : FileInfo) (res : CmdRes) (ftype : FileType) :
    (res.status_success = true → res.stdout ≠ "" →
      fi.is_type (.ok res) ftype = .ok (ftype_match ftype res.stdout)) ∧
    (res.status_success = false ∨ res.stdout = "" →
      fi.is_type (.ok res) ftype =
        .error { kind := .InvParam,
                 remark := "new: failed determine type for file " ++ fi.path }) ∧
    ftype_match ftype "" = false := by
  refine ⟨?_, ?_, ?_⟩
  · intro hs hnz
    simp [FileInfo.is_type, hs, hnz]
  · intro h
    rcases h with h | h <;> simp [FileInfo.is_type, h]
  · cases ftype <;> decide

/-- Witness for C4: a concrete empty `file`-utility output is a hard error,
and a concrete gzip-compressed MBR description matches `OSImage`. -/
theorem c4_is_type_contract_witness :
    (FileInfo.is_type { path := "/work/disk.img.gz", size := 0 }
        (.ok { stdout := "", stderr := "", status_success := true }) .OSImage =
      .error { kind := .InvParam,
               remark := "new: failed determine type for file /work/disk.img.gz" }) ∧
    (FileInfo.is_type { path := "/work/disk.img.gz", size := 4096 }
        (.ok { stdout := "DOS/MBR boot sector (gzip compressed data, last modified: ...)",
               stderr := "", status_success := true }) .OSImage = .ok true) := by
  constructor
  · exact (c4_is_type_contract { path := "/work/disk.img.gz", size := 0 }
      { stdout := "", stderr := "", status_success := true } .OSImage).2.1 (Or.inr rfl)
  · have h := (c4_is_type_contract { path := "/work/disk.img.gz", size := 4096 }
      { stdout := "DOS/MBR boot sector (gzip compressed data, last modified: ...)",
        stderr := "", status_success := true } .OSImage).1 rfl (by decide)
    have hm : ftype_match .OSImage
        "DOS/MBR boot sector (gzip compressed data, last modified: ...)" = true := by
      decide
    rw [h, hm]

/-- C6: when every required command is located and an optional command is not,
the `CMD_PATH` cache is still built (no panic), and every later `call_cmd`
request for that optional command — any arguments, any trim setting, any
subprocess behaviour — returns a `NotFound` "is not available" error. -/
theorem c6_call_cmd_optional_absent (whereis : String → Except MigError String)
    (cmd : String) (e : MigError)
    (hreq : ∀ c ∈ REQUIRED_CMDS, ∃ p, whereis c = .ok p)
    (hopt : cmd ∈ OPTIONAL_CMDS) (hfail : whereis cmd = .error e) :
    ∃ cache, build_cmd_path whereis = some cache ∧
      ∀ (call : String → List String → Bool → Except MigError CmdRes)
        (args : List String) (trim_stdout : Bool),
        call_cmd cache call cmd args trim_stdout =
          .error { kind := .NotFound,
                   remark := "Linux::util::call_cmd: " ++ cmd ++ " is not available" } := by
  obtain ⟨req, hreq_eq, hkeys⟩ := required_cmd_path_ok whereis REQUIRED_CMDS hreq
  refine ⟨req ++ optional_cmd_path whereis OPTIONAL_CMDS, ?_, ?_⟩
  · simp [build_cmd_path, hreq_eq]
  · intro call args trim_stdout
    have hnotreq : cmd ∉ REQUIRED_CMDS := by
      simp only [OPTIONAL_CMDS, List.mem_cons, List.mem_singleton] at hopt
      rcases hopt with h | h | h
      · subst h; decide
      · subst h; decide
      · cases h
    have hlook : (req ++ optional_cmd_path whereis OPTIONAL_CMDS).lookup cmd =
        (optional_cmd_path whereis OPTIONAL_CMDS).lookup cmd := by
      apply lookup_append_of_not_mem_keys
      rw [hkeys]
      exact hnotreq
    have hopt_look : (optional_cmd_path whereis OPTIONAL_CMDS).lookup cmd = some none := by
      simp only [OPTIONAL_CMDS, List.mem_cons, List.mem_singleton] at hopt
      rcases hopt with h | h | h
      · subst h
        simp [optional_cmd_path, List.lookup, hfail]
      · subst h
        simp [optional_cmd_path, List.lookup, hfail]
      · cases h
    simp [call_cmd, hlook, hopt_look]

/-- Witness for C6: a cache where `mokutil` could not be located answers every
`mokutil` call with the `NotFound` unavailability error. -/
theorem c6_call_cmd_optional_absent_witness :
    ∃ cache,
      build_cmd_path
        (fun c => if c = "mokutil" then .error { kind := .NotFound, remark := "whereis: command not found: 'mokutil'" }
                  else .ok ("/usr/bin/" ++ c)) = some cache ∧
      ∀ (call : String → List String → Bool → Except MigError CmdRes)
        (args : List String) (trim_stdout : Bool),
        call_cmd cache call "mokutil" args trim_stdout =
          .error { kind := .NotFound,
                   remark := "Linux::util::call_cmd: mokutil is not available" } := by
  apply c6_call_cmd_optional_absent
      (e := { kind := .NotFound, remark := "whereis: command not found: 'mokutil'" })
  · intro c hc
    simp only [REQUIRED_CMDS, List.mem_cons, List.mem_singleton] at hc
    rcases hc with h | h | h | h | h | h
    all_goals first
      | (subst h; exact ⟨_, rfl⟩)
      | cases h
  · decide
  · rfl

/-- C3: `FileInfo::new` resolves in order — a name that exists as given is
used (the work directory is then irrelevant); otherwise a non-absolute name
is joined to the work directory and used when that exists; otherwise the
result is `Ok(None)` (absence, not an error).  Any `FileInfo` produced comes
from a path confirmed to exist, carries its canonical form, and its stat'ed
size. -/
theorem c3_file_info_new_resolution (fs : FileFs) (file work_dir : String) :
    (fs.pathExists file = true →
      (∀ work_dir', FileInfo.new fs file work_dir = FileInfo.new fs file work_dir') ∧
      FileInfo.new fs file work_dir =
        (match fs.canon file with
         | .error _ => .panics
         | .ok abs_path =>
             match fs.metadata_len abs_path with
             | .error e =>
                 .err { kind := .Upstream,
                        remark := "failed to retrieve metadata for path " ++ abs_path,
                        cause := some e }
             | .ok len => .ok (some { path := abs_path, size := len }))) ∧
    (fs.pathExists file = false → isAbsolute file = false →
      fs.pathExists (pathJoin work_dir file) = true →
      FileInfo.new fs file work_dir =
        (match fs.canon (pathJoin work_dir file) with
         | .error _ => .panics
         | .ok abs_path =>
             match fs.metadata_len abs_path with
             | .error e =>
                 .err { kind := .Upstream,
                        remark := "failed to retrieve metadata for path " ++ abs_path,
                        cause := some e }
             | .ok len => .ok (some { path := abs_path, size := len }))) ∧
    (fs.pathExists file = false → isAbsolute file = false →
      fs.pathExists (pathJoin work_dir file) = false →
      FileInfo.new fs file work_dir = .ok none) ∧
    (fs.pathExists file = false → isAbsolute file = true →
      FileInfo.new fs file work_dir = .ok none) ∧
    (∀ fi, FileInfo.new fs file work_dir = .ok (some fi) →
      ∃ p, fs.pathExists p = true ∧ fs.canon p = .ok fi.path ∧
        fs.metadata_len fi.path = .ok fi.size ∧
        (p = file ∨ (isAbsolute file = false ∧ p = pathJoin work_dir file))) := by
  refine ⟨?_, ?_, ?_, ?_, ?_⟩
  · intro hex
    constructor
    · intro work_dir'
      simp [FileInfo.new, hex]
    · simp [FileInfo.new, hex]
  · intro hnex habs hjoin
    simp [FileInfo.new, hnex, habs, hjoin]
  · intro hnex habs hjoin
    simp [FileInfo.new, hnex, habs, hjoin]
  · intro hnex habs
    simp [FileInfo.new, hnex, habs]
  · intro fi hok
    cases hex : fs.pathExists file with
    | true =>
        refine ⟨file, hex, ?_⟩
        rcases hc : fs.canon file with e | abs_path
        · have hval : FileInfo.new fs file work_dir = .panics := by
            simp [FileInfo.new, hex, hc]
          rw [hval] at hok
          cases hok
        · rcases hmd : fs.metadata_len abs_path with e | len
          · have hval : FileInfo.new fs file work_dir =
                .err { kind := .Upstream,
                       remark := "failed to retrieve metadata for path " ++ abs_path,
                       cause := some e } := by
              simp [FileInfo.new, hex, hc, hmd]
            rw [hval] at hok
            cases hok
          · have hval : FileInfo.new fs file work_dir =
                .ok (some { path := abs_path, size := len }) := by
              simp [FileInfo.new, hex, hc, hmd]
            rw [hval] at hok
            cases hok
            exact ⟨rfl, hmd, Or.inl rfl⟩
    | false =>
        cases habs : isAbsolute file with
        | true =>
            have hval : FileInfo.new fs file work_dir = .ok none := by
              simp [FileInfo.new, hex, habs]
            rw [hval] at hok
            cases hok
        | false =>
            cases hjoin : fs.pathExists (pathJoin work_dir file) with
            | false =>
                have hval : FileInfo.new fs file work_dir = .ok none := by
                  simp [FileInfo.new, hex, habs, hjoin]
                rw [hval] at hok
                cases hok
            | true =>
                refine ⟨pathJoin work_dir file, hjoin, ?_⟩
                rcases hc : fs.canon (pathJoin work_dir file) with e | abs_path
                · have hval : FileInfo.new fs file work_dir = .panics := by
                    simp [FileInfo.new, hex, habs, hjoin, hc]
                  rw [hval] at hok
                  cases hok
                · rcases hmd : fs.metadata_len abs_path with e | len
                  · have hval : FileInfo.new fs file work_dir =
                        .err { kind := .Upstream,
                               remark := "failed to retrieve metadata for path " ++ abs_path,
                               cause := some e } := by
                      simp [FileInfo.new, hex, habs, hjoin, hc, hmd]
                    rw [hval] at hok
                    cases hok
                  · have hval : FileInfo.new fs file work_dir =
                        .ok (some { path := abs_path, size := len }) := by
                      simp [FileInfo.new, hex, habs, hjoin, hc, hmd]
                    rw [hval] at hok
                    cases hok
                    exact ⟨rfl, hmd, Or.inr ⟨rfl, rfl⟩⟩

/-- Witness for C3: a relative name absent from the current directory but
present under the work directory resolves to the joined path's canonical
form and size. -/
theorem c3_file_info_new_resolution_witness :
    FileInfo.new
      { pathExists := fun p => p = "/work/disk.img.gz",
        canon := fun p => .ok p,
        metadata_len := fun p => if p = "/work/disk.img.gz" then .ok 4096 else .error "ENOENT" }
      "disk.img.gz" "/work" = .ok (some { path := "/work/disk.img.gz", size := 4096 }) := by
  have h := ((c3_file_info_new_resolution
      { pathExists := fun p => p = "/work/disk.img.gz",
        canon := fun p => .ok p,
        metadata_len := fun p => if p = "/work/disk.img.gz" then .ok 4096 else .error "ENOENT" }
      "disk.img.gz" "/work").2.1) (by decide) (by decide) (by decide)
  rw [h]
  decide

/-- C8: `set_host_name(new_value)` stores the new hostname under the
`hostname` key, marks the document dirty, leaves every other key untouched,
and returns the previous hostname value (rendered through
`Value::to_string()`, as the source does) exactly when one existed,
`None` otherwise. -/
theorem c8_set_host_name_contract (cfg : BalenaCfgJson) (hostname : String) :
    (cfg.set_host_name hostname).2.modified = true ∧
    mapGet (cfg.set_host_name hostname).2.config "hostname" =
      some (Value.str hostname) ∧
    (cfg.set_host_name hostname).1 =
      (mapGet cfg.config "hostname").map Value.render ∧
    (∀ k, k ≠ "hostname" →
      mapGet (cfg.set_host_name hostname).2.config k = mapGet cfg.config k) := by
  refine ⟨rfl, ?_, ?_, ?_⟩
  · simpa [BalenaCfgJson.set_host_name, mapGet] using
      mapInsert_lookup_self cfg.config "hostname" (Value.str hostname)
  · simp [BalenaCfgJson.set_host_name, mapGet, mapInsert_fst]
  · intro k hk
    simpa [BalenaCfgJson.set_host_name, mapGet] using
      mapInsert_lookup_other cfg.config "hostname" (Value.str hostname) k hk

/-- Witness for C8 at a concrete document holding a previous hostname. -/
theorem c8_set_host_name_contract_witness :
    let cfg : BalenaCfgJson :=
      { config := [("hostname", Value.str "old-host"), ("applicationId", Value.int 314)],
        file := { path := "/work/config.json", size := 128 },
        modified := false }
    (cfg.set_host_name "new-host").2.modified = true ∧
    mapGet (cfg.set_host_name "new-host").2.config "hostname" =
      some (Value.str "new-host") ∧
    (cfg.set_host_name "new-host").1 = some "\"old-host\"" ∧
    mapGet (cfg.set_host_name "new-host").2.config "applicationId" =
      some (Value.int 314) := by
  intro cfg
  obtain ⟨h1, h2, h3, h4⟩ := c8_set_host_name_contract cfg "new-host"
  refine ⟨h1, h2, ?_, ?_⟩
  · rw [h3]
    rfl
  · rw [h4 "applicationId" (by decide)]
    rfl

/-- C9: the typed getters distinguish their error kinds — an absent key is a
`NotFound` error for both getters; a present key of the wrong shape (not a
string for `get_str_val`, not a `u64` for `get_uint_val`) is an `InvParam`
("invalid type") error; a present key of the right shape yields its value. -/
theorem c9_typed_getters_contract (cfg : BalenaCfgJson) (name : String) :
    (mapGet cfg.config name = none →
      (∃ e, cfg.get_str_val name = .error e ∧ e.kind = .NotFound) ∧
      (∃ e, cfg.get_uint_val name = .error e ∧ e.kind = .NotFound)) ∧
    (∀ v, mapGet cfg.config name = some v → v.as_str = none →
      ∃ e, cfg.get_str_val name = .error e ∧ e.kind = .InvParam) ∧
    (∀ s, mapGet cfg.config name = some (Value.str s) →
      cfg.get_str_val name = .ok s) ∧
    (∀ v, mapGet cfg.config name = some v → v.as_u64 = none →
      ∃ e, cfg.get_uint_val name = .error e ∧ e.kind = .InvParam) ∧
    (∀ v n, mapGet cfg.config name = some v → v.as_u64 = some n →
      cfg.get_uint_val name = .ok n) := by
  refine ⟨?_, ?_, ?_, ?_, ?_⟩
  · intro hnone
    refine ⟨⟨{ kind := .NotFound,
               remark := "Key could not be found in config.json: '" ++ name ++ "'" },
             ?_, rfl⟩,
            ⟨{ kind := .NotFound,
               remark := "Key could not be found in config.json: '" ++ name ++ "'" },
             ?_, rfl⟩⟩
    · simp [BalenaCfgJson.get_str_val, hnone]
    · simp [BalenaCfgJson.get_uint_val, hnone]
  · intro v hv hshape
    refine ⟨{ kind := .InvParam,
              remark := "Invalid type encountered for '" ++ name
                         ++ "', expected String, found in config.json" },
            ?_, rfl⟩
    simp [BalenaCfgJson.get_str_val, hv, hshape]
  · intro s hv
    simp [BalenaCfgJson.get_str_val, hv, Value.as_str]
  · intro v hv hshape
    refine ⟨{ kind := .InvParam,
              remark := "Invalid type encountered for '" ++ name ++ "', expected uint" },
            ?_, rfl⟩
    simp [BalenaCfgJson.get_uint_val, hv, hshape]
  · intro v n hv hn
    simp [BalenaCfgJson.get_uint_val, hv, hn]

/-- Witness for C9 on a concrete document: a present string key reads back,
a present non-uint key is an invalid-type error, an absent key is not-found. -/
theorem c9_typed_getters_contract_witness :
    let cfg : BalenaCfgJson :=
      { config := [("hostname", Value.str "dev-1"), ("vpnPort", Value.str "443")],
        file := { path := "/work/config.json", size := 64 },
        modified := false }
    cfg.get_str_val "hostname" = .ok "dev-1" ∧
    (∃ e, cfg.get_uint_val "vpnPort" = .error e ∧ e.kind = .InvParam) ∧
    (∃ e, cfg.get_str_val "apiKey" = .error e ∧ e.kind = .NotFound) := by
  intro cfg
  refine ⟨?_, ?_, ?_⟩
  · exact (c9_typed_getters_contract cfg "hostname").2.2.1 "dev-1" rfl
  · exact (c9_typed_getters_contract cfg "vpnPort").2.2.2.1 (Value.str "443") rfl rfl
  · exact ((c9_typed_getters_contract cfg "apiKey").1 rfl).1

/-- C7 counterexample (refuting the claim as stated): the document lives in
a std `HashMap` (balena_cfg_json.rs:13,21), so `serde_json::to_writer`
emits its entries in the map's arbitrary, per-process randomized iteration
order.  At a concrete two-key document, the iteration order that visits the
entries reversed — as legal an iteration of this map as any other — writes
the untouched keys in the opposite order from the original document, so a
write cycle does not preserve key order. -/
theorem c7_write_reorders_counterexample :
    let cfg : BalenaCfgJson :=
      { config := [("applicationId", Value.int 314), ("apiKey", Value.str "secret")],
        file := { path := "/work/config.json", size := 64 },
        modified := true }
    let fs : JsonFs :=
      { files := fun p => if p = "/work/config.json" then some (Value.obj cfg.config) else none,
        mktemp_res := .ok "/work/config.json.tmp1",
        open_w := fun _ => .ok () }
    (List.reverse cfg.config).Perm cfg.config ∧
    (∃ files', cfg.write fs List.reverse =
        .ok ("/work/config.json.tmp1", { cfg with modified := false }, files') ∧
      files' "/work/config.json.tmp1" =
        some (Value.obj [("apiKey", Value.str "secret"),
                         ("applicationId", Value.int 314)])) ∧
    [("apiKey", Value.str "secret"), ("applicationId", Value.int 314)].map Prod.fst ≠
      cfg.config.map Prod.fst := by
  intro cfg fs
  exact ⟨List.reverse_perm _, ⟨_, rfl, rfl⟩, by decide⟩

/-- C7 (amended): after mutating a provisioning document (`set_host_name`),
the dirty flag is set; a successful `write` emits the full document to the
freshly created uniquely-named file, touches no other path (in particular
never the original file), and clears the dirty flag; re-parsing the written
file recovers a document holding exactly the mutated document's key/value
pairs — no key the caller did not touch is dropped and each keeps its value
— but in the arbitrary `HashMap` iteration order (`hash_iter`, constrained
only to be a permutation of the map's contents), so key order across a
write cycle is not preserved. -/
theorem c7_write_round_trip (cfg : BalenaCfgJson) (hostname : String)
    (fs : JsonFs) (new_path : String)
    (hash_iter : List (String × Value) → List (String × Value))
    (hnd : (cfg.config.map Prod.fst).Nodup)
    (hperm : ∀ l, (hash_iter l).Perm l)
    (hmk : fs.mktemp_res = .ok new_path)
    (hopen : fs.open_w new_path = .ok ())
    (horig : new_path ≠ cfg.file.path) :
    let m := (cfg.set_host_name hostname).2
    m.modified = true ∧
    (∃ files', m.write fs hash_iter =
        .ok (new_path, { m with modified := false }, files') ∧
      files' new_path = some (Value.obj (hash_iter m.config)) ∧
      files' cfg.file.path = fs.files cfg.file.path ∧
      (∀ p, p ≠ new_path → files' p = fs.files p) ∧
      ({ m with modified := false } : BalenaCfgJson).modified = false ∧
      (∀ size, ∃ reparsed,
        BalenaCfgJson.new { fs with files := files' }
            { path := new_path, size := size } = .ok reparsed ∧
        reparsed.config.Perm m.config ∧
        (∀ k, reparsed.config.lookup k = m.config.lookup k) ∧
        (∀ k, k ≠ "hostname" →
          reparsed.config.lookup k = cfg.config.lookup k))) ∧
    (∀ k, k ≠ "hostname" → m.config.lookup k = cfg.config.lookup k) := by
  intro m
  have hmnd : (m.config.map Prod.fst).Nodup :=
    mapInsert_nodup cfg.config "hostname" (Value.str hostname) hnd
  have hiter : (hash_iter m.config).Perm m.config := hperm m.config
  have hiternd : ((hash_iter m.config).map Prod.fst).Nodup :=
    ((hiter.map Prod.fst).nodup_iff).mpr hmnd
  refine ⟨rfl, ?_, ?_⟩
  · refine ⟨fun p => if p = new_path then some (Value.obj (hash_iter m.config))
        else fs.files p,
        ?_, by simp, by simp only [if_neg (Ne.symm horig)], ?_, rfl, ?_⟩
    · simp [BalenaCfgJson.write, hmk, hopen]
    · intro p hp
      simp [hp]
    · intro size
      refine ⟨{ config := hash_iter m.config,
                file := { path := new_path, size := size },
                modified := false }, ?_, hiter, ?_, ?_⟩
      · simp [BalenaCfgJson.new]
      · intro k
        exact lookup_eq_of_perm hiter hiternd k
      · intro k hk
        rw [lookup_eq_of_perm hiter hiternd k]
        exact mapInsert_lookup_other cfg.config "hostname" (Value.str hostname) k hk
  · intro k hk
    exact mapInsert_lookup_other cfg.config "hostname" (Value.str hostname) k hk

/-- Witness for C7 (amended) at a concrete document, mutation, filesystem
and iteration order. -/
theorem c7_write_round_trip_witness :
    let cfg : BalenaCfgJson :=
      { config := [("hostname", Value.str "old-host"),
                   ("applicationId", Value.int 314),
                   ("apiKey", Value.str "secret")],
        file := { path := "/work/config.json", size := 96 },
        modified := false }
    let fs : JsonFs :=
      { files := fun p => if p = "/work/config.json" then some (Value.obj cfg.config) else none,
        mktemp_res := .ok "/work/config.json.k3QzX1",
        open_w := fun _ => .ok () }
    let m := (cfg.set_host_name "new-host").2
    m.modified = true ∧
    (∃ files', m.write fs (fun l => l) =
        .ok ("/work/config.json.k3QzX1", { m with modified := false }, files') ∧
      files' "/work/config.json" = some (Value.obj cfg.config) ∧
      (∃ reparsed,
        BalenaCfgJson.new { fs with files := files' }
            { path := "/work/config.json.k3QzX1", size := 96 } = .ok reparsed ∧
        reparsed.config.lookup "hostname" = some (Value.str "new-host") ∧
        reparsed.config.lookup "applicationId" = some (Value.int 314) ∧
        reparsed.config.lookup "apiKey" = some (Value.str "secret"))) := by
  intro cfg fs m
  obtain ⟨h1, ⟨files', hw, hnew, horig', hother, hflag, hparse⟩, huntouched⟩ :=
    c7_write_round_trip cfg "new-host" fs "/work/config.json.k3QzX1" (fun l => l)
      (by decide) (fun l => List.Perm.refl l) rfl rfl (by decide)
  obtain ⟨reparsed, hre, hperm2, hlk, hlk2⟩ := hparse 96
  refine ⟨h1, ⟨files', hw, ?_, ⟨reparsed, hre, ?_, ?_, ?_⟩⟩⟩
  · rw [horig']
    rfl
  · rw [hlk "hostname"]
    rfl
  · rw [hlk2 "applicationId" (by decide)]
    rfl
  · rw [hlk2 "apiKey" (by decide)]
    rfl

/-- C10: a provisioning document whose `vpnPort` holds an unsigned integer
`≥ 2^16` (but in `u64` range) is not rejected by `check()` with VPN checking
enabled: the port is truncated `as u16` to `vpnPort mod 2^16` and the VPN
probe runs against that truncated port; the overall result is exactly the
probe's outcome (`displayed` error on probe failure). -/
theorem c10_vpn_port_truncated (cfg : BalenaCfgJson) (config : CheckConfig)
    (parse_url : String → Except String UrlParts)
    (to_socket_addrs : String → Except MigError (List SockAddr))
    (connect_timeout : SockAddr → Nat → Except MigError Unit)
    (app_id : Nat) (vpn_host : String) (port : Nat)
    (hapi : config.check_api = false) (hvpn : config.check_vpn = true)
    (happ : cfg.get_app_id = .ok app_id)
    (hhost : cfg.get_vpn_endpoint = .ok vpn_host)
    (hport : mapGet cfg.config "vpnPort" = some (Value.int (port : Int)))
    (hge : 2 ^ 16 ≤ port) (hlt : port < 2 ^ 64) :
    cfg.check config parse_url to_socket_addrs connect_timeout =
      match check_tcp_connect vpn_host (port % 2 ^ 16) config.check_timeout
          to_socket_addrs connect_timeout with
      | .ok _ => .ok ()
      | .error _ => .error MigError.displayed := by
  have hlt' : port ≤ 18446744073709551615 := by omega
  have hvp : cfg.get_vpn_port = .ok port := by
    simp [BalenaCfgJson.get_vpn_port, BalenaCfgJson.get_uint_val, hport,
      Value.as_u64, hlt']
  simp only [BalenaCfgJson.check, happ, hapi, hvpn, hhost, hvp, if_false, if_true,
    Bool.false_eq_true]

/-- Witness for C10: `vpnPort = 66019 = 2^16 + 483` probes port 483 and the
check succeeds. -/
theorem c10_vpn_port_truncated_witness :
    let cfg : BalenaCfgJson :=
      { config := [("applicationId", Value.int 314),
                   ("vpnEndpoint", Value.str "vpn.example.com"),
                   ("vpnPort", Value.int 66019)],
        file := { path := "/work/config.json", size := 64 },
        modified := false }
    cfg.check { check_api := false, check_vpn := true, check_timeout := 20 }
      (fun _ => .error "unused") (fun _ => .ok ["10.0.0.1"]) (fun _ _ => .ok ()) =
      .ok () := by
  intro cfg
  have h := c10_vpn_port_truncated cfg
      { check_api := false, check_vpn := true, check_timeout := 20 }
      (fun _ => .error "unused") (fun _ => .ok ["10.0.0.1"]) (fun _ _ => .ok ())
      314 "vpn.example.com" 66019 rfl rfl (by rfl) (by rfl) (by rfl)
      (by decide) (by decide)
  rw [h]
  rfl

end Migrate
